import Mathlib

/-!
Verification development for the sokrates task-queue core.

Shallow embedding of:
* `src/sokrates/task_queue/processor.py` (`TaskProcessor.process_tasks`,
  `TaskProcessor._process_single_task_file`),
* `src/sokrates/sequential_task_executor.py`
  (`SequentialTaskExecutor.execute_tasks_from_file`),
* `src/sokrates/cli/task_queue/sokrates_daemon.py` (daemon process control).

The repository ships `TaskQueueManager`, `StatusTracker` and `ErrorHandler`
only as callees of `processor.py`; their modules are not part of the source
tree given here, so their contracts are modelled from the specification
(doc comments on the corresponding definitions say so explicitly).
Side effects (status writes, error-log appends, sleeps, executor calls,
store release) are made observable as an event trace.
-/

namespace Sokrates

/-- Task status values used by the queue (spec section 3: data model). -/
inductive TaskStatus
  | pending
  | in_progress
  | completed
  | failed
  | dead_letter
deriving DecidableEq, Repr

/-- Decision returned by the Failure Policy
(`ErrorHandler.handle_failure` in the code). -/
inductive NextAction
  | retry
  | dead_letter
  | fail
deriving DecidableEq, Repr

/-- Observable side effects of one processing pass.  Each constructor
records one call the processor makes on its collaborators:
status writes through the Status Tracker, error-log appends through the
Failure Policy, backoff and inter-task sleeps, executor invocations
(numbered from 1), and the final release of the Queue Store handle. -/
inductive Event
  | statusUpdate (taskId : Nat) (s : TaskStatus)
  | logError (taskId : Nat) (attempt : Nat)
  | sleepBackoff (d : Nat)
  | invokeExecutor (n : Nat)
  | sleepInterTask
  | close
deriving DecidableEq, Repr

/-- Modelled from the spec: `ErrorHandler.handle_failure` (error_handler.py is
not part of the given source tree).  Spec section 4.3: must return `retry`
while `attempt` is below a configured maximum, and `dead_letter` once the
maximum is exceeded.  Scenario C (max attempts = 3, 3 error records, no
attempt 4) pins the boundary: the decision at `attempt = max` is already
`dead_letter`, so the policy is `retry` iff `attempt < max`. -/
def handleFailure (maxAttempts : Nat) (attempt : Nat) : NextAction :=
  if attempt < maxAttempts then NextAction.retry else NextAction.dead_letter

/-- Modelled from the spec: `ErrorHandler.get_retry_delay` (error_handler.py is
not part of the given source tree).  Spec section 4.3 recommends exponential
backoff `base * 2 ^ (attempt - 1)`. -/
def getRetryDelay (base : Nat) (attempt : Nat) : Nat :=
  base * 2 ^ (attempt - 1)

/-- The `while True` retry loop of
`TaskProcessor._process_single_task_file` (processor.py lines 111-150),
entered after the initial executor invocation raised.

Parameters: `hf` is the Failure Policy decision function
(`ErrorHandler.handle_failure`), `delay` the backoff schedule
(`ErrorHandler.get_retry_delay`), `ex n` tells whether the `n`-th executor
invocation succeeds (`True`) or raises (`False`), `taskId` the task,
`attempt` the loop's `current_attempt`, and `fuel` bounds the number of
loop iterations the embedding will unfold (`none` means the bound was hit
before the loop exited; termination is proved separately).

Each iteration appends `log_error`, then consults `hf`:
* `retry`: sleep the backoff delay and re-invoke the executor
  (invocation number `attempt + 1`); on success write `completed` and stop,
  on failure increment the attempt counter and iterate;
* `dead_letter` / `fail`: stop.  The terminal status write in these two
  branches models the spec's requirement (section 4.4 step 2d) that the
  corresponding terminal status is persisted; in the code this happens
  inside `ErrorHandler.handle_failure`, whose module is not in the given
  source tree. -/
def retryLoop (hf : Nat → NextAction) (delay : Nat → Nat) (ex : Nat → Bool)
    (taskId : Nat) : Nat → Nat → Option (List Event)
  | _, 0 => none
  | attempt, fuel + 1 =>
    let logged := Event.logError taskId attempt
    match hf attempt with
    | NextAction.retry =>
      let evs := [logged, Event.sleepBackoff (delay attempt),
                  Event.invokeExecutor (attempt + 1)]
      if ex (attempt + 1) then
        some (evs ++ [Event.statusUpdate taskId TaskStatus.completed])
      else
        (retryLoop hf delay ex taskId (attempt + 1) fuel).map (evs ++ ·)
    | NextAction.dead_letter =>
      some [logged, Event.statusUpdate taskId TaskStatus.dead_letter]
    | NextAction.fail =>
      some [logged, Event.statusUpdate taskId TaskStatus.failed]

/-- `TaskProcessor._process_single_task_file` (processor.py lines 79-150):
write `in_progress`, invoke the executor; on success write `completed`,
on failure enter the retry loop with `current_attempt = 1`. -/
def processSingleTask (hf : Nat → NextAction) (delay : Nat → Nat)
    (ex : Nat → Bool) (taskId : Nat) (fuel : Nat) : Option (List Event) :=
  let pre := [Event.statusUpdate taskId TaskStatus.in_progress,
              Event.invokeExecutor 1]
  if ex 1 then
    some (pre ++ [Event.statusUpdate taskId TaskStatus.completed])
  else
    (retryLoop hf delay ex taskId 1 fuel).map (pre ++ ·)

/-- The `for task in pending_tasks` loop of `TaskProcessor.process_tasks`
(processor.py lines 70-72): each pending task is processed by
`_process_single_task_file` followed by the fixed one-second inter-task
delay, in store order.  `exFor t` gives the executor behaviour for task
`t`. -/
def processAllTasks (hf : Nat → NextAction) (delay : Nat → Nat)
    (exFor : Nat → Nat → Bool) (fuel : Nat) : List Nat → Option (List Event)
  | [] => some []
  | t :: ts => do
    let tr ← processSingleTask hf delay (exFor t) t fuel
    let rest ← processAllTasks hf delay exFor fuel ts
    pure (tr ++ [Event.sleepInterTask] ++ rest)

/-- `TaskProcessor.process_tasks` (processor.py lines 54-77).
`fetch` models `self.manager.get_pending_tasks(limit)` (manager.py is not
in the given source tree; the spec's Queue Store contract lets the fetch
either return the pending task ids or raise): `Except.error` is the fetch
raising, caught by the `except` clause; the `finally` clause releases the
store handle (`manager.close()`) on every path, which the embedding records
as a final `Event.close`.  An empty fetch returns early (still through
`finally`). -/
def process_tasks (fetch : Except String (List Nat))
    (hf : Nat → NextAction) (delay : Nat → Nat)
    (exFor : Nat → Nat → Bool) (fuel : Nat) : Option (List Event) :=
  match fetch with
  | Except.error _ => some [Event.close]
  | Except.ok pending =>
    if pending.isEmpty then
      some [Event.close]
    else
      (processAllTasks hf delay exFor fuel pending).map (· ++ [Event.close])

/-- Number of error records appended (`ErrorHandler.log_error` calls) in a
trace. -/
def countLogErrors (tr : List Event) : Nat :=
  tr.countP (fun e => match e with
    | Event.logError _ _ => true
    | _ => false)

/-- The backoff delays slept, in order. -/
def backoffDelays (tr : List Event) : List Nat :=
  tr.filterMap (fun e => match e with
    | Event.sleepBackoff d => some d
    | _ => none)

/-- The executor invocation numbers occurring, in order. -/
def invokeIndices (tr : List Event) : List Nat :=
  tr.filterMap (fun e => match e with
    | Event.invokeExecutor n => some n
    | _ => none)

/-- The final persisted status: the last status write of the trace. -/
def finalStatus (tr : List Event) : Option TaskStatus :=
  (tr.filterMap (fun e => match e with
    | Event.statusUpdate _ s => some s
    | _ => none)).getLast?

/-- Whether an event is the release of the Queue Store handle. -/
def isClose : Event → Bool
  | Event.close => true
  | _ => false

/-- Whether an event is a status write to `in_progress` (each task's
processing starts with exactly one such write). -/
def isInProgressWrite : Event → Bool
  | Event.statusUpdate _ TaskStatus.in_progress => true
  | _ => false

/-! Embedding of `SequentialTaskExecutor.execute_tasks_from_file`
(sequential_task_executor.py lines 94-170).  The JSON task file is an
object with an optional top-level `task` description and a `subtasks`
list; each subtask record has optional `id` and `description` fields
(`subtask.get` returns `None` when absent).  The per-subtask LLM workflow
`_process_single_task_file` is external to this core (it calls the LLM
API); it is abstracted as a `step` function receiving the subtask id,
the subtask description and the optional main-task description, and
either returning a result string or raising. -/

/-- One subtask record of the task file. -/
structure Subtask where
  id : Option Int
  description : Option String
deriving DecidableEq, Repr

/-- The parsed task file: optional main task plus the subtask list. -/
structure TaskFile where
  task : Option String
  subtasks : List Subtask
deriving DecidableEq, Repr

/-- One entry of the `details` list of the summary dict. -/
structure ExecDetail where
  task_id : Option Int
  status : String
  message : String
deriving DecidableEq, Repr

/-- The summary dict returned by `execute_tasks_from_file`. -/
structure ExecResults where
  total_tasks : Nat
  successful_tasks : Nat
  failed_tasks : Nat
  details : List ExecDetail
deriving DecidableEq, Repr

/-- Loop state: the summary being built plus, as instrumentation, the
arguments of every `_process_single_task_file` call made so far (so that
theorems can speak about which subtasks actually reached the executor). -/
structure ExecState where
  results : ExecResults
  calls : List (Int × String)
deriving DecidableEq, Repr

/-- One iteration of the `for subtask in tasks.get("subtasks", [])` loop
(sequential_task_executor.py lines 135-162).  The guard
`if not task_id or not task_desc` uses Python truthiness: a missing
(`None`) id or description is falsy, and so are the id `0` and the empty
description — any of these skips the subtask with a `details` entry and
no executor call.  Otherwise `_process_single_task_file` (abstracted as
`step`) runs: success increments `successful_tasks`, an exception
increments `failed_tasks`, and either way one `details` entry is
appended. -/
def runSubtask (step : Int → String → Option String → Except String String)
    (main_task : Option String) (st : ExecState) (sub : Subtask) :
    ExecState :=
  match sub.id, sub.description with
  | some i, some d =>
    if i = 0 ∨ d = "" then
      { st with results := { st.results with
          details := st.results.details ++
            [⟨sub.id, "skipped", "Missing required fields"⟩] } }
    else
      match step i d main_task with
      | Except.ok _ =>
        { results := { st.results with
            successful_tasks := st.results.successful_tasks + 1,
            details := st.results.details ++
              [⟨some i, "completed", "Task executed successfully"⟩] },
          calls := st.calls ++ [(i, d)] }
      | Except.error e =>
        { results := { st.results with
            failed_tasks := st.results.failed_tasks + 1,
            details := st.results.details ++
              [⟨some i, "failed", "Error executing task: " ++ e⟩] },
          calls := st.calls ++ [(i, d)] }
  | _, _ =>
    { st with results := { st.results with
        details := st.results.details ++
          [⟨sub.id, "skipped", "Missing required fields"⟩] } }

/-- `execute_tasks_from_file`, with the instrumented call list:
initialise the summary with `total_tasks` set to the number of subtasks
and zero counters, then run the subtask loop. -/
def executeRun (step : Int → String → Option String → Except String String)
    (tasks : TaskFile) : ExecState :=
  tasks.subtasks.foldl (runSubtask step tasks.task)
    { results := { total_tasks := tasks.subtasks.length,
                   successful_tasks := 0, failed_tasks := 0, details := [] },
      calls := [] }

/-- The summary dict `execute_tasks_from_file` returns. -/
def execute_tasks_from_file
    (step : Int → String → Option String → Except String String)
    (tasks : TaskFile) : ExecResults :=
  (executeRun step tasks).results

/-- The `details` entry one subtask contributes (a pure restatement of the
branches of `runSubtask`, used to describe the loop's accumulated
output). -/
def detailFor (step : Int → String → Option String → Except String String)
    (main_task : Option String) (sub : Subtask) : ExecDetail :=
  match sub.id, sub.description with
  | some i, some d =>
    if i = 0 ∨ d = "" then
      ⟨sub.id, "skipped", "Missing required fields"⟩
    else
      match step i d main_task with
      | Except.ok _ => ⟨some i, "completed", "Task executed successfully"⟩
      | Except.error e => ⟨some i, "failed", "Error executing task: " ++ e⟩
  | _, _ => ⟨sub.id, "skipped", "Missing required fields"⟩

/-- The executor calls one subtask contributes: none when skipped, one
otherwise. -/
def callsFor (sub : Subtask) : List (Int × String) :=
  match sub.id, sub.description with
  | some i, some d => if i = 0 ∨ d = "" then [] else [(i, d)]
  | _, _ => []

/-- Whether a subtask is counted as successful. -/
def isExecSuccess (step : Int → String → Option String → Except String String)
    (main_task : Option String) (sub : Subtask) : Bool :=
  match sub.id, sub.description with
  | some i, some d =>
    if i = 0 ∨ d = "" then false
    else
      match step i d main_task with
      | Except.ok _ => true
      | Except.error _ => false
  | _, _ => false

/-- Whether a subtask is counted as failed. -/
def isExecFailure (step : Int → String → Option String → Except String String)
    (main_task : Option String) (sub : Subtask) : Bool :=
  match sub.id, sub.description with
  | some i, some d =>
    if i = 0 ∨ d = "" then false
    else
      match step i d main_task with
      | Except.ok _ => false
      | Except.error _ => true
  | _, _ => false

/-- Whether a subtask is skipped by the loop's truthiness guard. -/
def isSkippedSub (sub : Subtask) : Bool :=
  match sub.id, sub.description with
  | some i, some d => decide (i = 0 ∨ d = "")
  | _, _ => true

/-- The concrete Scenario A task file: two well-formed subtasks, no
top-level task description. -/
def scenarioAFile : TaskFile :=
  { task := none,
    subtasks := [{ id := some 1, description := some "first subtask" },
                 { id := some 2, description := some "second subtask" }] }

/-- An executor step that always succeeds. -/
def stepAlwaysOk : Int → String → Option String → Except String String :=
  fun _ _ _ => Except.ok "done"

/-- A task file whose first subtask is missing its identifier. -/
def fileWithMissingId : TaskFile :=
  { task := some "main objective",
    subtasks := [{ id := none, description := some "orphan subtask" },
                 { id := some 2, description := some "second subtask" }] }

/-! Embedding of the daemon process-control CLI
(cli/task_queue/sokrates_daemon.py).  The OS interactions are
parameterised: `pgrep name` models `subprocess.run(["pgrep", "-f", name])`
returning a return code and standard-output lines; `forkPid` is the child
pid that `os.fork()` hands the parent; `killOk` says whether the signal
delivery and termination wait in `stop_daemon` succeed. -/

/-- `DAEMON_PROCESS_NAMES` (sokrates_daemon.py lines 17-20): the
prioritized daemon process-name fragments. -/
def DAEMON_PROCESS_NAMES : List String := ["sokrates-daemon", "sokrates_daemon"]

/-- Result of one `pgrep -f name` invocation: return code plus the lines
of its standard output after strip/split. -/
structure PgrepResult where
  returncode : Int
  stdout_lines : List String
deriving DecidableEq, Repr

/-- Python `str.isdigit` on one pgrep output line: non-empty and all
digits. -/
def isPidLine (s : String) : Bool :=
  !s.data.isEmpty && s.data.all Char.isDigit

/-- Python `int(pid)` on an all-digit line: base-10 value of the digit
characters. -/
def pidOfLine (s : String) : Nat :=
  s.data.foldl (fun n c => n * 10 + (c.toNat - 48)) 0

/-- `_search_for_pid_by_process_names` (sokrates_daemon.py lines 111-125):
try each fragment in order; on return code 0 take the first all-digit
output line as the pid; otherwise — non-zero return code, or no digit
line — continue with the next fragment; `None` when the list is
exhausted. -/
def searchForPidByProcessNames (pgrep : String → PgrepResult) :
    List String → Option Nat
  | [] => none
  | name :: rest =>
    let r := pgrep name
    if r.returncode = 0 then
      match r.stdout_lines.find? isPidLine with
      | some s => some (pidOfLine s)
      | none => searchForPidByProcessNames pgrep rest
    else
      searchForPidByProcessNames pgrep rest

/-- `find_daemon_pid` (sokrates_daemon.py lines 127-134). -/
def find_daemon_pid (pgrep : String → PgrepResult) : Option Nat :=
  searchForPidByProcessNames pgrep DAEMON_PROCESS_NAMES

/-- The pid one single pgrep result yields (a pure restatement of the
inner loop of `_search_for_pid_by_process_names`, used to phrase the
first-match property of the fragment scan). -/
def pidOfPgrep (r : PgrepResult) : Option Nat :=
  if r.returncode = 0 then (r.stdout_lines.find? isPidLine).map pidOfLine
  else none

/-- Outcome of `start_daemon` (sokrates_daemon.py lines 22-62) as seen
from the invoking process: whether `os.fork` ran, the pid reported to the
operator, the process exit code when the function exits the process
itself (`sys.exit(0)` on the already-running path), and the value
returned to the caller otherwise (the parent branch returns the child
pid; the child never returns here — it runs the daemon). -/
structure StartResult where
  forked : Bool
  reportedPid : Option Nat
  earlyExitCode : Option Nat
  returnedPid : Option Nat
deriving DecidableEq, Repr

/-- `start_daemon`: an existing daemon pid means no fork, report the
existing pid and `sys.exit(0)`; otherwise fork and report / return the
child pid. -/
def start_daemon (pgrep : String → PgrepResult) (forkPid : Nat) :
    StartResult :=
  match find_daemon_pid pgrep with
  | some pid =>
    { forked := false, reportedPid := some pid,
      earlyExitCode := some 0, returnedPid := none }
  | none =>
    { forked := true, reportedPid := some forkPid,
      earlyExitCode := none, returnedPid := some forkPid }

/-- `stop_daemon` (sokrates_daemon.py lines 68-109): with an explicit pid,
send the signals (`killOk` summarises whether delivery and the
termination wait succeed); without one, discover first and return `False`
when no daemon is found. -/
def stop_daemon (pgrep : String → PgrepResult) (killOk : Bool)
    (pid : Option Nat) : Bool :=
  match pid with
  | some _ => killOk
  | none =>
    match find_daemon_pid pgrep with
    | none => false
    | some _ => killOk

/-- `check_status` (sokrates_daemon.py lines 136-144). -/
def check_status (pgrep : String → PgrepResult) : Bool :=
  (find_daemon_pid pgrep).isSome

/-- Python value returned by a command function to `main`:
`start_daemon` returns the child pid (an int), `stop_daemon` and
`check_status` a bool, and `restart_daemon` returns `None` — it has no
return statement. -/
inductive PyRet
  | noneVal
  | boolVal (b : Bool)
  | intVal (n : Nat)
deriving DecidableEq, Repr

/-- Python truthiness of such a value. -/
def truthy : PyRet → Bool
  | PyRet.noneVal => false
  | PyRet.boolVal b => b
  | PyRet.intVal n => decide (n ≠ 0)

/-- The four CLI commands. -/
inductive Command
  | start
  | stop (pid : Option Nat)
  | restart
  | status
deriving DecidableEq, Repr

/-- `main` (sokrates_daemon.py lines 146-185): run the selected command
function and map its returned value through
`sys.exit(0 if success else 1)` — unless the command function already
exited the process itself (the `sys.exit(0)` inside `start_daemon`,
which also terminates `restart_daemon` mid-way).  `pgrep` is the
process-table view the first discovery scan sees; `pgrepAfterStop` is
the view the start half of `restart_daemon` sees after its stop half. -/
def mainExitCode (cmd : Command) (pgrep pgrepAfterStop : String → PgrepResult)
    (killOk : Bool) (forkPid : Nat) : Nat :=
  match cmd with
  | Command.start =>
    let r := start_daemon pgrep forkPid
    match r.earlyExitCode with
    | some c => c
    | none => if truthy (PyRet.intVal (r.returnedPid.getD 0)) then 0 else 1
  | Command.stop pid =>
    if truthy (PyRet.boolVal (stop_daemon pgrep killOk pid)) then 0 else 1
  | Command.restart =>
    let _stopped := stop_daemon pgrep killOk none
    let r := start_daemon pgrepAfterStop forkPid
    match r.earlyExitCode with
    | some c => c
    | none => if truthy PyRet.noneVal then 0 else 1
  | Command.status =>
    if truthy (PyRet.boolVal (check_status pgrep)) then 0 else 1

/-- A process-table view in which the daemon is running with pid 42. -/
def pgrepDaemonRunning : String → PgrepResult :=
  fun _ => { returncode := 0, stdout_lines := ["42"] }

/-- A process-table view with no daemon process. -/
def pgrepNoDaemon : String → PgrepResult :=
  fun _ => { returncode := 1, stdout_lines := [] }

/-- Auxiliary: traces produced by the retry loop contain no store release
and no `in_progress` status write (the loop only logs errors, sleeps,
re-invokes the executor and writes terminal statuses). -/
theorem retryLoop_mem (hf : Nat → NextAction) (delay : Nat → Nat)
    (ex : Nat → Bool) (taskId : Nat) :
    ∀ fuel attempt tr, retryLoop hf delay ex taskId attempt fuel = some tr →
      ∀ e ∈ tr, isClose e = false ∧ isInProgressWrite e = false := by
  intro fuel
  induction fuel with
  | zero => intro attempt tr h; exact absurd h (by simp [retryLoop])
  | succ f ih =>
    intro attempt tr h
    rw [retryLoop] at h
    cases hcase : hf attempt <;> rw [hcase] at h
    case retry =>
      by_cases hex : ex (attempt + 1) = true
      · rw [if_pos hex] at h
        cases h
        intro e he
        fin_cases he <;> exact ⟨rfl, rfl⟩
      · rw [if_neg hex] at h
        rcases Option.map_eq_some'.mp h with ⟨tr2, htr2, rfl⟩
        intro e he
        rcases List.mem_append.mp he with h1 | h1
        · fin_cases h1 <;> exact ⟨rfl, rfl⟩
        · exact ih (attempt + 1) tr2 htr2 e h1
    case dead_letter =>
      cases h
      intro e he
      fin_cases he <;> exact ⟨rfl, rfl⟩
    case fail =>
      cases h
      intro e he
      fin_cases he <;> exact ⟨rfl, rfl⟩

/-- Auxiliary: a single task's trace contains no store release and exactly
one `in_progress` status write, for the task itself. -/
theorem processSingleTask_events (hf : Nat → NextAction) (delay : Nat → Nat)
    (ex : Nat → Bool) (taskId fuel : Nat) (tr : List Event)
    (h : processSingleTask hf delay ex taskId fuel = some tr) :
    tr.countP isClose = 0 ∧
    tr.filter isInProgressWrite =
      [Event.statusUpdate taskId TaskStatus.in_progress] := by
  rw [processSingleTask] at h
  by_cases hex : ex 1 = true
  · rw [if_pos hex] at h
    cases h
    constructor <;> rfl
  · rw [if_neg hex] at h
    rcases Option.map_eq_some'.mp h with ⟨tr2, htr2, rfl⟩
    have hmem := retryLoop_mem hf delay ex taskId fuel 1 tr2 htr2
    have h0 : tr2.countP isClose = 0 :=
      List.countP_eq_zero.mpr (fun e he => by simp [(hmem e he).1])
    have hnil : tr2.filter isInProgressWrite = [] :=
      List.filter_eq_nil_iff.mpr (fun e he => by simp [(hmem e he).2])
    constructor
    · rw [List.countP_append, h0]
      rfl
    · rw [List.filter_append, hnil]
      rfl

/-- Auxiliary: the per-pass loop trace contains no store release and its
`in_progress` writes are exactly one per pending task, in store order. -/
theorem processAllTasks_events (hf : Nat → NextAction) (delay : Nat → Nat)
    (exFor : Nat → Nat → Bool) (fuel : Nat) :
    ∀ ts tr, processAllTasks hf delay exFor fuel ts = some tr →
      tr.countP isClose = 0 ∧
      tr.filter isInProgressWrite =
        ts.map (fun t => Event.statusUpdate t TaskStatus.in_progress) := by
  intro ts
  induction ts with
  | nil =>
    intro tr h
    rw [processAllTasks] at h
    cases h
    constructor <;> rfl
  | cons t ts ih =>
    intro tr h
    rw [processAllTasks] at h
    rcases Option.bind_eq_some.mp h with ⟨tr1, htr1, h2⟩
    rcases Option.bind_eq_some.mp h2 with ⟨rest, hrest, h3⟩
    cases h3
    rcases processSingleTask_events hf delay (exFor t) t fuel tr1 htr1
      with ⟨hc1, hf1⟩
    rcases ih rest hrest with ⟨hc2, hf2⟩
    constructor
    · simp [List.countP_append, hc1, hc2, isClose]
    · simp [List.filter_append, hf1, hf2, isInProgressWrite]

/-- C2: every completed invocation of `process_tasks` releases the Queue
Store handle exactly once, as its last action, on every exit path (no
pending tasks, all tasks processed, and the fetch itself raising); in the
fetch-error case the pass aborts with no task processed (the trace is just
the store release). -/
theorem process_tasks_closes_store_exactly_once
    (fetch : Except String (List Nat)) (hf : Nat → NextAction)
    (delay : Nat → Nat) (exFor : Nat → Nat → Bool) (fuel : Nat)
    (tr : List Event)
    (h : process_tasks fetch hf delay exFor fuel = some tr) :
    tr.countP isClose = 1 ∧
    tr.getLast? = some Event.close ∧
    (∀ msg, fetch = Except.error msg → tr = [Event.close]) := by
  match fetch with
  | Except.error m =>
    rw [process_tasks] at h
    cases h
    refine ⟨rfl, rfl, fun _ _ => rfl⟩
  | Except.ok pending =>
    rw [process_tasks] at h
    by_cases hemp : pending.isEmpty = true
    · rw [if_pos hemp] at h
      cases h
      refine ⟨rfl, rfl, fun msg hmsg => by cases hmsg⟩
    · rw [if_neg hemp] at h
      rcases Option.map_eq_some'.mp h with ⟨tr2, htr2, rfl⟩
      rcases processAllTasks_events hf delay exFor fuel pending tr2 htr2
        with ⟨hc, _⟩
      refine ⟨?_, ?_, fun msg hmsg => by cases hmsg⟩
      · simp [List.countP_append, hc, isClose]
      · simp

/-- C2 witness: a raising fetch yields the trace consisting of exactly the
store release. -/
theorem process_tasks_closes_store_exactly_once_witness :
    ([Event.close].countP isClose = 1 ∧
     ([Event.close] : List Event).getLast? = some Event.close ∧
     (∀ msg, (Except.error "db unavailable" : Except String (List Nat))
        = Except.error msg → [Event.close] = [Event.close])) :=
  process_tasks_closes_store_exactly_once (Except.error "db unavailable")
    (handleFailure 3) (getRetryDelay 1) (fun _ _ => false) 1 [Event.close] rfl

/-- Auxiliary: the retry loop exits within the fuel bound as soon as the
Failure Policy stops answering `retry` for attempt numbers above `maxA`,
because the attempt counter strictly increases on every failed retry. -/
theorem retryLoop_isSome (hf : Nat → NextAction) (delay : Nat → Nat)
    (ex : Nat → Bool) (taskId maxA : Nat)
    (hhf : ∀ a, maxA < a → hf a ≠ NextAction.retry) :
    ∀ fuel attempt, 0 < fuel → maxA + 2 ≤ attempt + fuel →
      (retryLoop hf delay ex taskId attempt fuel).isSome := by
  intro fuel
  induction fuel with
  | zero => intro attempt h _; omega
  | succ f ih =>
    intro attempt _ hle
    rw [retryLoop]
    cases hcase : hf attempt with
    | retry =>
      have hA : attempt ≤ maxA := by
        by_contra hgt
        exact hhf attempt (by omega) hcase
      cases hex : ex (attempt + 1) with
      | true => simp [hex]
      | false =>
        have := ih (attempt + 1) (by omega) (by omega)
        simp only [hex, if_neg Bool.false_ne_true, Option.isSome_map]
        simpa using this
    | dead_letter => simp
    | fail => simp

/-- Auxiliary: a single task's processing completes (returns, rather than
spinning) whenever the Failure Policy stops answering `retry` above the
maximum attempt number. -/
theorem processSingleTask_isSome (hf : Nat → NextAction) (delay : Nat → Nat)
    (ex : Nat → Bool) (taskId maxA : Nat)
    (hhf : ∀ a, maxA < a → hf a ≠ NextAction.retry) :
    (processSingleTask hf delay ex taskId (maxA + 1)).isSome := by
  rw [processSingleTask]
  by_cases hex : ex 1 = true
  · rw [if_pos hex]; rfl
  · rw [if_neg hex]
    rcases Option.isSome_iff_exists.mp
      (retryLoop_isSome hf delay ex taskId maxA hhf (maxA + 1) 1
        (by omega) (by omega)) with ⟨tr2, h2⟩
    rw [h2]
    rfl

/-- Auxiliary: the per-pass loop completes on every pending-task list
whenever the Failure Policy stops answering `retry` above the maximum
attempt number. -/
theorem processAllTasks_isSome (hf : Nat → NextAction) (delay : Nat → Nat)
    (exFor : Nat → Nat → Bool) (maxA : Nat)
    (hhf : ∀ a, maxA < a → hf a ≠ NextAction.retry) :
    ∀ ts, (processAllTasks hf delay exFor (maxA + 1) ts).isSome := by
  intro ts
  induction ts with
  | nil => rfl
  | cons t ts ih =>
    rw [processAllTasks]
    rcases Option.isSome_iff_exists.mp
      (processSingleTask_isSome hf delay (exFor t) t maxA hhf) with ⟨tr1, h1⟩
    rcases Option.isSome_iff_exists.mp ih with ⟨rest, h2⟩
    rw [h1, h2]
    rfl

/-- C4: within one processing pass over a non-empty pending list the tasks
are isolated: whatever the per-task executor behaviour (`exFor`, which may
make any task exhaust its retries into `dead_letter` or be declared
failed), the pass completes and every pending task is processed, in store
order, one at a time — the `in_progress` writes of the pass are exactly
one per task, in the order the store returned them. -/
theorem pass_isolates_task_failures (hf : Nat → NextAction)
    (delay : Nat → Nat) (exFor : Nat → Nat → Bool) (tasks : List Nat)
    (maxA : Nat) (hhf : ∀ a, maxA < a → hf a ≠ NextAction.retry)
    (hne : tasks ≠ []) :
    ∃ tr, process_tasks (Except.ok tasks) hf delay exFor (maxA + 1)
        = some tr ∧
      tr.filter isInProgressWrite =
        tasks.map (fun t => Event.statusUpdate t TaskStatus.in_progress) := by
  rcases Option.isSome_iff_exists.mp
    (processAllTasks_isSome hf delay exFor maxA hhf tasks) with ⟨tr2, h2⟩
  refine ⟨tr2 ++ [Event.close], ?_, ?_⟩
  · rw [process_tasks]
    rw [if_neg (fun hemp => hne (List.isEmpty_iff.mp hemp)), h2]
    rfl
  · rw [List.filter_append,
      (processAllTasks_events hf delay exFor (maxA + 1) tasks tr2 h2).2]
    have hc : List.filter isInProgressWrite [Event.close] = [] := rfl
    rw [hc, List.append_nil]

/-- C4 witness: two pending tasks, both always failing against maximum 1,
are both still processed, in store order. -/
theorem pass_isolates_task_failures_witness :
    ∃ tr, process_tasks (Except.ok [4, 5]) (handleFailure 1) (getRetryDelay 1)
        (fun _ _ => false) 2 = some tr ∧
      tr.filter isInProgressWrite =
        [4, 5].map (fun t => Event.statusUpdate t TaskStatus.in_progress) :=
  pass_isolates_task_failures (handleFailure 1) (getRetryDelay 1)
    (fun _ _ => false) [4, 5] 1
    (by
      intro a ha
      have h1 : ¬ a < 1 := by omega
      simp [handleFailure, h1])
    (by decide)

/-- C1: with the executor raising on every invocation and the maximum
attempt count configured to 3, `_process_single_task_file` ends with the
final persisted status `dead_letter`, exactly 3 error records logged
(one per failed attempt via `log_error`), and no fourth executor
invocation: the invocations are exactly 1, 2, 3. -/
theorem scenarioC_dead_letter_after_three_attempts (taskId : Nat)
    (delay : Nat → Nat) :
    ∃ tr, processSingleTask (handleFailure 3) delay (fun _ => false) taskId 4
        = some tr ∧
      finalStatus tr = some TaskStatus.dead_letter ∧
      countLogErrors tr = 3 ∧
      invokeIndices tr = [1, 2, 3] := by
  refine ⟨_, rfl, ?_, ?_, ?_⟩ <;> rfl

/-- C3: with the executor raising on invocations 1 and 2 and succeeding on
invocation 3, and the maximum attempt count configured to 3,
`_process_single_task_file` ends with final status `completed`, exactly 2
error records logged, and the backoff delay slept before the second retry
strictly greater than the delay slept before the first retry. -/
theorem scenarioB_completed_on_third_attempt (taskId b : Nat) (hb : 0 < b) :
    ∃ tr, processSingleTask (handleFailure 3) (getRetryDelay b)
        (fun n => n == 3) taskId 4 = some tr ∧
      finalStatus tr = some TaskStatus.completed ∧
      countLogErrors tr = 2 ∧
      ∃ d1 d2, backoffDelays tr = [d1, d2] ∧ d1 < d2 := by
  refine ⟨_, rfl, rfl, rfl, getRetryDelay b 1, getRetryDelay b 2, rfl, ?_⟩
  simp only [getRetryDelay, Nat.sub_self, pow_zero, mul_one, Nat.pow_one]
  omega

/-- C3 witness: Scenario B at task id 0 with backoff base 1. -/
theorem scenarioB_completed_on_third_attempt_witness :
    0 < 1 ∧
    ∃ tr, processSingleTask (handleFailure 3) (getRetryDelay 1)
        (fun n => n == 3) 0 4 = some tr ∧
      finalStatus tr = some TaskStatus.completed ∧
      countLogErrors tr = 2 ∧
      ∃ d1 d2, backoffDelays tr = [d1, d2] ∧ d1 < d2 :=
  ⟨by decide, scenarioB_completed_on_third_attempt 0 1 (by decide)⟩

/-- C5: the retry loop of `_process_single_task_file` terminates: whenever
the Failure Policy returns something other than `retry` once the attempt
number exceeds the configured maximum, the loop exits within `maxA + 1`
iterations starting from `current_attempt = 1` (the attempt counter
strictly increases on each failed retry, so no infinite retry occurs). -/
theorem retry_loop_terminates (hf : Nat → NextAction) (delay : Nat → Nat)
    (ex : Nat → Bool) (taskId maxA : Nat)
    (hhf : ∀ a, maxA < a → hf a ≠ NextAction.retry) :
    (retryLoop hf delay ex taskId 1 (maxA + 1)).isSome :=
  retryLoop_isSome hf delay ex taskId maxA hhf (maxA + 1) 1 (by omega) (by omega)

/-- C5 witness: the spec-modelled policy with maximum 3 and an
always-failing executor exits the loop within 4 iterations. -/
theorem retry_loop_terminates_witness :
    (retryLoop (handleFailure 3) (getRetryDelay 1) (fun _ => false) 0 1 4).isSome :=
  retry_loop_terminates (handleFailure 3) (getRetryDelay 1) (fun _ => false) 0 3
    (by
      intro a ha
      have h3 : ¬ a < 3 := by omega
      simp [handleFailure, h3])

/-- Auxiliary: closed form of the subtask loop.  Starting from any loop
state, the fold appends one `details` entry per subtask in order, adds
exactly the counts of successful and failed executor runs, records
exactly the executor calls of the non-skipped subtasks, and leaves
`total_tasks` untouched. -/
theorem executeFold_spec
    (step : Int → String → Option String → Except String String)
    (main_task : Option String) :
    ∀ (l : List Subtask) (st : ExecState),
      l.foldl (runSubtask step main_task) st =
        { results := { total_tasks := st.results.total_tasks,
                       successful_tasks := st.results.successful_tasks
                         + l.countP (isExecSuccess step main_task),
                       failed_tasks := st.results.failed_tasks
                         + l.countP (isExecFailure step main_task),
                       details := st.results.details
                         ++ l.map (detailFor step main_task) },
          calls := st.calls ++ l.flatMap callsFor } := by
  intro l
  induction l with
  | nil =>
    intro st
    rcases st with ⟨⟨t, s, f, dts⟩, cs⟩
    simp
  | cons x xs ih =>
    intro st
    rw [List.foldl_cons, ih]
    rcases x with ⟨oid, odesc⟩
    rcases oid with _ | i <;> rcases odesc with _ | d
    · simp [runSubtask, isExecSuccess, isExecFailure, detailFor, callsFor,
        List.countP_cons, List.append_assoc]
    · simp [runSubtask, isExecSuccess, isExecFailure, detailFor, callsFor,
        List.countP_cons, List.append_assoc]
    · simp [runSubtask, isExecSuccess, isExecFailure, detailFor, callsFor,
        List.countP_cons, List.append_assoc]
    · by_cases hz : i = 0 ∨ d = ""
      · simp [runSubtask, isExecSuccess, isExecFailure, detailFor, callsFor,
          List.countP_cons, List.append_assoc, hz]
      · cases hstep : step i d main_task with
        | ok r =>
          simp [runSubtask, isExecSuccess, isExecFailure, detailFor,
            callsFor, List.countP_cons, List.append_assoc, hz, hstep,
            Nat.add_assoc, Nat.add_comm, Nat.add_left_comm]
        | error e =>
          simp [runSubtask, isExecSuccess, isExecFailure, detailFor,
            callsFor, List.countP_cons, List.append_assoc, hz, hstep,
            Nat.add_assoc, Nat.add_comm, Nat.add_left_comm]

/-- Auxiliary: closed form of `executeRun` itself. -/
theorem executeRun_eq
    (step : Int → String → Option String → Except String String)
    (tasks : TaskFile) :
    executeRun step tasks =
      { results := { total_tasks := tasks.subtasks.length,
                     successful_tasks :=
                       tasks.subtasks.countP (isExecSuccess step tasks.task),
                     failed_tasks :=
                       tasks.subtasks.countP (isExecFailure step tasks.task),
                     details :=
                       tasks.subtasks.map (detailFor step tasks.task) },
        calls := tasks.subtasks.flatMap callsFor } := by
  rw [executeRun, executeFold_spec]
  simp

/-- Auxiliary: every subtask is counted in exactly one of the three
outcomes — success, failure, skipped. -/
theorem countP_outcomes_partition
    (step : Int → String → Option String → Except String String)
    (main_task : Option String) :
    ∀ l : List Subtask,
      l.countP (isExecSuccess step main_task)
        + l.countP (isExecFailure step main_task)
        + l.countP isSkippedSub = l.length := by
  intro l
  induction l with
  | nil => rfl
  | cons x xs ih =>
    rcases x with ⟨oid, od⟩
    rcases oid with _ | i <;> rcases od with _ | d
    · simp [List.countP_cons, isExecSuccess, isExecFailure, isSkippedSub]
      omega
    · simp [List.countP_cons, isExecSuccess, isExecFailure, isSkippedSub]
      omega
    · simp [List.countP_cons, isExecSuccess, isExecFailure, isSkippedSub]
      omega
    · by_cases hz : i = 0 ∨ d = ""
      · simp [List.countP_cons, isExecSuccess, isExecFailure, isSkippedSub,
          hz]
        omega
      · cases hstep : step i d main_task <;>
          simp [List.countP_cons, isExecSuccess, isExecFailure, isSkippedSub,
            hz, hstep] <;>
          omega

/-- Auxiliary: a subtask's `details` entry says "skipped" exactly when the
truthiness guard skipped it. -/
theorem detailFor_status_skipped
    (step : Int → String → Option String → Except String String)
    (main_task : Option String) (sub : Subtask) :
    ((detailFor step main_task sub).status == "skipped") = isSkippedSub sub := by
  rcases sub with ⟨oid, od⟩
  rcases oid with _ | i <;> rcases od with _ | d
  · rfl
  · rfl
  · rfl
  · by_cases hz : i = 0 ∨ d = ""
    · simp [detailFor, isSkippedSub, hz]
    · cases hstep : step i d main_task <;>
        simp [detailFor, isSkippedSub, hz, hstep]

/-- Auxiliary: a subtask missing its id or description gets the "skipped"
`details` entry. -/
theorem detailFor_of_missing
    (step : Int → String → Option String → Except String String)
    (main_task : Option String) (sub : Subtask)
    (h : sub.id = none ∨ sub.description = none) :
    detailFor step main_task sub =
      { task_id := sub.id, status := "skipped",
        message := "Missing required fields" } := by
  rcases sub with ⟨oid, od⟩
  rcases oid with _ | i <;> rcases od with _ | d
  · rfl
  · rfl
  · rfl
  · rcases h with h | h <;> simp at h

/-- Auxiliary: a subtask missing its id or description contributes no
executor call. -/
theorem callsFor_of_missing (sub : Subtask)
    (h : sub.id = none ∨ sub.description = none) :
    callsFor sub = [] := by
  rcases sub with ⟨oid, od⟩
  rcases oid with _ | i <;> rcases od with _ | d
  · rfl
  · rfl
  · rfl
  · rcases h with h | h <;> simp at h

/-- Auxiliary: the success and failure counters add up to the number of
executor calls made. -/
theorem countP_exec_eq_calls_length
    (step : Int → String → Option String → Except String String)
    (main_task : Option String) :
    ∀ l : List Subtask,
      l.countP (isExecSuccess step main_task)
        + l.countP (isExecFailure step main_task)
        = (l.flatMap callsFor).length := by
  intro l
  induction l with
  | nil => rfl
  | cons x xs ih =>
    have hx : (callsFor x).length
        = (if isExecSuccess step main_task x then 1 else 0)
          + (if isExecFailure step main_task x then 1 else 0) := by
      rcases x with ⟨oid, od⟩
      rcases oid with _ | i <;> rcases od with _ | d
      · rfl
      · rfl
      · rfl
      · by_cases hz : i = 0 ∨ d = ""
        · simp [callsFor, isExecSuccess, isExecFailure, hz]
        · cases hstep : step i d main_task <;>
            simp [callsFor, isExecSuccess, isExecFailure, hz, hstep]
    rw [List.countP_cons, List.countP_cons, List.flatMap_cons,
      List.length_append, hx, ← ih]
    omega

/-- C6: a subtask missing its identifier or its description is skipped by
`execute_tasks_from_file`: its `details` entry (at its own position) has
status "skipped" with the missing-fields message, the executor calls made
are exactly those of the non-skipped subtasks — with this subtask
contributing none — and the success and failure counters together count
exactly the executor calls, so the skipped subtask is counted in
neither. -/
theorem malformed_subtask_skipped
    (step : Int → String → Option String → Except String String)
    (tasks : TaskFile) (k : Nat) (hk : k < tasks.subtasks.length)
    (hmiss : (tasks.subtasks.get ⟨k, hk⟩).id = none ∨
             (tasks.subtasks.get ⟨k, hk⟩).description = none) :
    (execute_tasks_from_file step tasks).details[k]? =
      some { task_id := (tasks.subtasks.get ⟨k, hk⟩).id,
             status := "skipped", message := "Missing required fields" } ∧
    (executeRun step tasks).calls = tasks.subtasks.flatMap callsFor ∧
    callsFor (tasks.subtasks.get ⟨k, hk⟩) = [] ∧
    (execute_tasks_from_file step tasks).successful_tasks
      + (execute_tasks_from_file step tasks).failed_tasks
      = (executeRun step tasks).calls.length := by
  rw [execute_tasks_from_file, executeRun_eq]
  refine ⟨?_, rfl, callsFor_of_missing _ hmiss, ?_⟩
  · show (tasks.subtasks.map (detailFor step tasks.task))[k]? = _
    rw [List.getElem?_map, List.getElem?_eq_getElem hk]
    show some (detailFor step tasks.task (tasks.subtasks.get ⟨k, hk⟩)) = _
    rw [detailFor_of_missing step tasks.task _ hmiss]
  · show tasks.subtasks.countP (isExecSuccess step tasks.task)
        + tasks.subtasks.countP (isExecFailure step tasks.task)
      = (tasks.subtasks.flatMap callsFor).length
    exact countP_exec_eq_calls_length step tasks.task tasks.subtasks

/-- C6 witness: a file whose first subtask has no id, against an
always-succeeding executor. -/
theorem malformed_subtask_skipped_witness :
    (execute_tasks_from_file stepAlwaysOk fileWithMissingId).details[0]? =
      some { task_id := none, status := "skipped",
             message := "Missing required fields" } ∧
    (executeRun stepAlwaysOk fileWithMissingId).calls =
      fileWithMissingId.subtasks.flatMap callsFor ∧
    callsFor { id := none, description := some "orphan subtask" } = [] ∧
    (execute_tasks_from_file stepAlwaysOk fileWithMissingId).successful_tasks
      + (execute_tasks_from_file stepAlwaysOk fileWithMissingId).failed_tasks
      = (executeRun stepAlwaysOk fileWithMissingId).calls.length :=
  malformed_subtask_skipped stepAlwaysOk fileWithMissingId 0 (by decide)
    (Or.inl rfl)

/-- C9: Scenario A — the two-subtask file with no top-level task
description, against an always-succeeding executor, yields a summary of
2 total, 2 successful, 0 failed. -/
theorem scenarioA_summary :
    (execute_tasks_from_file stepAlwaysOk scenarioAFile).total_tasks = 2 ∧
    (execute_tasks_from_file stepAlwaysOk scenarioAFile).successful_tasks = 2 ∧
    (execute_tasks_from_file stepAlwaysOk scenarioAFile).failed_tasks = 0 :=
  ⟨rfl, rfl, rfl⟩

/-- C10: for every task file, the summary satisfies: one `details` entry
per subtask, `total_tasks` equals the number of subtasks, successful plus
failed plus skipped entries equals the number of subtasks, and whenever
some subtask is missing its id or description the successful and failed
counters sum to strictly less than `total_tasks`. -/
theorem summary_counts_invariant
    (step : Int → String → Option String → Except String String)
    (tasks : TaskFile) :
    (execute_tasks_from_file step tasks).details.length
        = tasks.subtasks.length ∧
    (execute_tasks_from_file step tasks).total_tasks
        = tasks.subtasks.length ∧
    (execute_tasks_from_file step tasks).successful_tasks
        + (execute_tasks_from_file step tasks).failed_tasks
        + (execute_tasks_from_file step tasks).details.countP
            (fun dt => dt.status == "skipped")
        = tasks.subtasks.length ∧
    (∀ sub ∈ tasks.subtasks, (sub.id = none ∨ sub.description = none) →
      (execute_tasks_from_file step tasks).successful_tasks
          + (execute_tasks_from_file step tasks).failed_tasks
        < (execute_tasks_from_file step tasks).total_tasks) := by
  rw [execute_tasks_from_file, executeRun_eq]
  have hskip : (tasks.subtasks.map (detailFor step tasks.task)).countP
      (fun dt => dt.status == "skipped") = tasks.subtasks.countP isSkippedSub := by
    rw [List.countP_map]
    refine List.countP_congr (fun sub _ => ?_)
    simp only [Function.comp_apply]
    rw [detailFor_status_skipped step tasks.task sub]
  refine ⟨List.length_map _ _, rfl, ?_, ?_⟩
  · show tasks.subtasks.countP (isExecSuccess step tasks.task)
        + tasks.subtasks.countP (isExecFailure step tasks.task)
        + (tasks.subtasks.map (detailFor step tasks.task)).countP
            (fun dt => dt.status == "skipped")
      = tasks.subtasks.length
    rw [hskip]
    exact countP_outcomes_partition step tasks.task tasks.subtasks
  · intro sub hmem hmiss
    have hsub : isSkippedSub sub = true := by
      rcases sub with ⟨oid, od⟩
      rcases oid with _ | i <;> rcases od with _ | d
      · rfl
      · rfl
      · rfl
      · rcases hmiss with h | h <;> simp at h
    have hpos : 0 < tasks.subtasks.countP isSkippedSub :=
      List.countP_pos_iff.mpr ⟨sub, hmem, hsub⟩
    have hpart := countP_outcomes_partition step tasks.task tasks.subtasks
    show tasks.subtasks.countP (isExecSuccess step tasks.task)
        + tasks.subtasks.countP (isExecFailure step tasks.task)
      < tasks.subtasks.length
    omega

/-- C10 witness: the invariant evaluated on the file whose first subtask is
missing its id. -/
theorem summary_counts_invariant_witness :
    (execute_tasks_from_file stepAlwaysOk fileWithMissingId).details.length
        = fileWithMissingId.subtasks.length ∧
    (execute_tasks_from_file stepAlwaysOk fileWithMissingId).total_tasks
        = fileWithMissingId.subtasks.length ∧
    (execute_tasks_from_file stepAlwaysOk fileWithMissingId).successful_tasks
        + (execute_tasks_from_file stepAlwaysOk fileWithMissingId).failed_tasks
        + (execute_tasks_from_file stepAlwaysOk fileWithMissingId).details.countP
            (fun dt => dt.status == "skipped")
        = fileWithMissingId.subtasks.length ∧
    (∀ sub ∈ fileWithMissingId.subtasks,
      (sub.id = none ∨ sub.description = none) →
      (execute_tasks_from_file stepAlwaysOk fileWithMissingId).successful_tasks
          + (execute_tasks_from_file stepAlwaysOk fileWithMissingId).failed_tasks
        < (execute_tasks_from_file stepAlwaysOk fileWithMissingId).total_tasks) :=
  summary_counts_invariant stepAlwaysOk fileWithMissingId

/-- C7: when discovery finds an existing daemon pid, `start_daemon` does
not fork, reports the existing pid and exits the process successfully
(code 0); and discovery tries each identifying name fragment in the fixed
priority order, returning the first numeric pid found: the scan equals
the first-match search over the fragment list. -/
theorem start_idempotent_and_discovery_order
    (pgrep : String → PgrepResult) (forkPid : Nat) :
    (∀ pid, find_daemon_pid pgrep = some pid →
      (start_daemon pgrep forkPid).forked = false ∧
      (start_daemon pgrep forkPid).reportedPid = some pid ∧
      (start_daemon pgrep forkPid).earlyExitCode = some 0) ∧
    (∀ names, searchForPidByProcessNames pgrep names
        = names.findSome? (fun n => pidOfPgrep (pgrep n))) := by
  constructor
  · intro pid hfind
    rw [start_daemon, hfind]
    exact ⟨rfl, rfl, rfl⟩
  · intro names
    induction names with
    | nil => rfl
    | cons n rest ih =>
      rw [List.findSome?_cons]
      simp only [searchForPidByProcessNames]
      by_cases hrc : (pgrep n).returncode = 0
      · rw [if_pos hrc]
        cases hfind : (pgrep n).stdout_lines.find? isPidLine with
        | some s => simp [pidOfPgrep, hrc, hfind]
        | none => simp [pidOfPgrep, hrc, hfind, ih]
      · rw [if_neg hrc]
        simp [pidOfPgrep, hrc, ih]

/-- C7 witness: a process table where every fragment matches pid 42. -/
theorem start_idempotent_and_discovery_order_witness :
    ((start_daemon pgrepDaemonRunning 77).forked = false ∧
     (start_daemon pgrepDaemonRunning 77).reportedPid = some 42 ∧
     (start_daemon pgrepDaemonRunning 77).earlyExitCode = some 0) ∧
    searchForPidByProcessNames pgrepDaemonRunning DAEMON_PROCESS_NAMES
      = DAEMON_PROCESS_NAMES.findSome?
          (fun n => pidOfPgrep (pgrepDaemonRunning n)) :=
  ⟨(start_idempotent_and_discovery_order pgrepDaemonRunning 77).1 42 (by decide),
   (start_idempotent_and_discovery_order pgrepDaemonRunning 77).2
     DAEMON_PROCESS_NAMES⟩

/-- C8 evaluation: `main` maps start, stop and status through
`sys.exit(0 if success else 1)` as claimed, but a successfully completed
restart — daemon running with pid 42, signals delivered, the post-stop
scan finding no survivor, a new daemon forked with pid 77 — exits with
code 1, not 0: `restart_daemon` has no return statement, so `main`
receives `None`, which is falsy. -/
theorem restart_success_exits_one :
    mainExitCode Command.restart pgrepDaemonRunning pgrepNoDaemon true 77 = 1 ∧
    mainExitCode Command.start pgrepNoDaemon pgrepNoDaemon true 77 = 0 ∧
    mainExitCode (Command.stop (some 42)) pgrepDaemonRunning
      pgrepDaemonRunning true 77 = 0 ∧
    mainExitCode (Command.stop none) pgrepNoDaemon pgrepNoDaemon true 77 = 1 ∧
    mainExitCode Command.status pgrepDaemonRunning pgrepDaemonRunning true 77
      = 0 :=
  ⟨rfl, rfl, rfl, rfl, rfl⟩

end Sokrates
